import Mathlib

set_option linter.unusedVariables false

/-!
Shallow embedding of `src/src/query-builder/on-conflict-builder.ts`:
the ON CONFLICT (upsert) clause builders `OnConflictBuilder`,
`OnConflictDoNothingBuilder` and `OnConflictUpdateBuilder`, together with the
parts of their collaborators (`OnConflictNode` clone helpers, filter parsers,
node constructors) that the builder file calls.  The collaborators live
outside `src/` and are modelled from the spec where marked.
-/

namespace Kysely

/-- Modelled from the spec: `IdentifierNode` (operation-node/identifier-node.ts,
outside `src/`) is an opaque identifier node; `IdentifierNode.create(name)`
wraps the name. -/
structure IdentifierNode where
  name : String
  deriving DecidableEq, Repr

def IdentifierNode.create (name : String) : IdentifierNode :=
  ⟨name⟩

/-- Modelled from the spec: `ColumnNode` (operation-node/column-node.ts,
outside `src/`) is a column identifier node; `ColumnNode.create(column)` wraps
the column name in an identifier. -/
structure ColumnNode where
  column : IdentifierNode
  deriving DecidableEq, Repr

def ColumnNode.create (column : String) : ColumnNode :=
  ⟨IdentifierNode.create column⟩

/-- Modelled from the spec: the operation node produced by a pre-built raw
expression, opaque to this subsystem. -/
structure RawNode where
  id : Nat
  deriving DecidableEq, Repr

/-- Modelled from the spec: `RawBuilder` (raw-builder/raw-builder.ts, outside
`src/`) holds a pre-built opaque expression; the conflict builder only calls
`toOperationNode()` on it. -/
structure RawBuilder where
  node : RawNode
  deriving DecidableEq, Repr

def RawBuilder.toOperationNode (r : RawBuilder) : RawNode :=
  r.node

/-- Modelled from the spec: the Predicate Tree, an "immutable
boolean-expression node combining comparisons, reference-to-reference
comparisons, and correlated existence checks via AND/OR".  Leaves are the
opaque fragments produced by the external filter parsers. -/
inductive PredicateTree where
  | frag (id : Nat)
  | refFrag (lhs op rhs : String)
  | existsFrag (id : Nat)
  | notExistsFrag (id : Nat)
  | and (l r : PredicateTree)
  | or (l r : PredicateTree)
  deriving DecidableEq, Repr

/-- Modelled from the spec: the Predicate Composer's `and(tree, new)`:
"AND-joining onto an absent predicate yields that predicate unchanged;
AND-joining onto an existing predicate wraps both in a conjunction". -/
def PredicateTree.andJoin : Option PredicateTree → PredicateTree → PredicateTree
  | none, p => p
  | some t, p => PredicateTree.and t p

/-- Modelled from the spec: the Predicate Composer's `or(tree, new)`:
"OR-joining follows the same two rules with disjunction". -/
def PredicateTree.orJoin : Option PredicateTree → PredicateTree → PredicateTree
  | none, p => p
  | some t, p => PredicateTree.or t p

/-- Modelled from the spec: `ParseContext` (parser/parse-context.ts, outside
`src/`) carries schema information for the external identifier resolvers; this
subsystem only threads it through to the parsers. -/
structure ParseContext where
  schemaId : Nat
  deriving DecidableEq, Repr

abbrev FilterOperator := String

abbrev ComplexExpression := Nat

/-- Modelled from the spec: `parseWhereFilter` (parser/filter-parser.ts,
outside `src/`) turns the caller's filter arguments (comparison triple,
grouping callback or raw fragment) into a predicate subtree; here the
arguments stand for the already-parsed fragment. -/
def parseWhereFilter (ctx : ParseContext) (args : PredicateTree) : PredicateTree :=
  args

/-- Modelled from the spec: `parseReferenceFilter` (outside `src/`) builds a
reference-to-reference comparison fragment. -/
def parseReferenceFilter (ctx : ParseContext) (lhs : String) (op : FilterOperator)
    (rhs : String) : PredicateTree :=
  PredicateTree.refFrag lhs op rhs

/-- Modelled from the spec: `parseExistFilter` (outside `src/`) builds a
correlated existence-check fragment. -/
def parseExistFilter (ctx : ParseContext) (arg : ComplexExpression) : PredicateTree :=
  PredicateTree.existsFrag arg

/-- Modelled from the spec: `parseNotExistFilter` (outside `src/`) builds a
correlated non-existence-check fragment. -/
def parseNotExistFilter (ctx : ParseContext) (arg : ComplexExpression) : PredicateTree :=
  PredicateTree.notExistsFrag arg

/-- Modelled from the spec: one column-to-value assignment produced by the
external update-set parser. -/
structure ColumnUpdateNode where
  column : String
  value : Nat
  deriving DecidableEq, Repr

abbrev MutationObject := List (String × Nat)

/-- Modelled from the spec: `parseUpdateObject` (parser/update-set-parser.ts,
outside `src/`) resolves the caller's column-to-value mapping into update
nodes. -/
def parseUpdateObject (ctx : ParseContext) (updates : MutationObject) :
    List ColumnUpdateNode :=
  updates.map fun u => ⟨u.1, u.2⟩

/-- `freeze` (util/object-utils.ts, outside `src/`): the identity on values —
in this value-semantics embedding freezing has no observable effect. -/
def freeze {α : Type _} (a : α) : α :=
  a

/-- The conflict descriptor (`OnConflictNode`, outside `src/`): the immutable
aggregate of target (`columns` / `constraint` / `indexExpression`), index
predicate (`indexWhere`), and action (`doNothing` flag, `updates` mapping with
`updateWhere` gate), each field absent until set. -/
structure OnConflictNode where
  columns : Option (List ColumnNode)
  constraint : Option IdentifierNode
  indexExpression : Option RawNode
  indexWhere : Option PredicateTree
  updates : Option (List ColumnUpdateNode)
  updateWhere : Option PredicateTree
  doNothing : Option Bool
  deriving DecidableEq, Repr

/-- Modelled from the spec: `OnConflictNode.cloneWith(node, \x7bcolumns\x7d)`
(outside `src/`) — "every operation replaces the whole descriptor with a new
value holding the delta"; this is the clone carrying a `columns` delta. -/
def OnConflictNode.cloneWithColumns (node : OnConflictNode)
    (columns : List ColumnNode) : OnConflictNode :=
  freeze { node with columns := some columns }

/-- Modelled from the spec: `OnConflictNode.cloneWith(node, \x7bconstraint\x7d)`
(outside `src/`), the clone carrying a `constraint` delta. -/
def OnConflictNode.cloneWithConstraint (node : OnConflictNode)
    (constraint : IdentifierNode) : OnConflictNode :=
  freeze { node with constraint := some constraint }

/-- Modelled from the spec: `OnConflictNode.cloneWith(node, \x7bindexExpression\x7d)`
(outside `src/`), the clone carrying an `indexExpression` delta. -/
def OnConflictNode.cloneWithIndexExpression (node : OnConflictNode)
    (indexExpression : RawNode) : OnConflictNode :=
  freeze { node with indexExpression := some indexExpression }

/-- Modelled from the spec: `OnConflictNode.cloneWith(node, \x7bupdates\x7d)`
(outside `src/`), the clone carrying an `updates` delta. -/
def OnConflictNode.cloneWithUpdates (node : OnConflictNode)
    (updates : List ColumnUpdateNode) : OnConflictNode :=
  freeze { node with updates := some updates }

/-- Modelled from the spec: `OnConflictNode.cloneWith(node, \x7bdoNothing\x7d)`
(outside `src/`), the clone carrying a `doNothing` delta. -/
def OnConflictNode.cloneWithDoNothing (node : OnConflictNode)
    (flag : Bool) : OnConflictNode :=
  freeze { node with doNothing := some flag }

/-- Modelled from the spec: `OnConflictNode.cloneWithIndexWhere` (outside
`src/`) AND-joins a parsed fragment onto the index predicate via the Predicate
Composer contract. -/
def OnConflictNode.cloneWithIndexWhere (node : OnConflictNode)
    (filter : PredicateTree) : OnConflictNode :=
  freeze { node with indexWhere := some (PredicateTree.andJoin node.indexWhere filter) }

/-- Modelled from the spec: `OnConflictNode.cloneWithIndexOrWhere` (outside
`src/`) OR-joins a parsed fragment onto the index predicate. -/
def OnConflictNode.cloneWithIndexOrWhere (node : OnConflictNode)
    (filter : PredicateTree) : OnConflictNode :=
  freeze { node with indexWhere := some (PredicateTree.orJoin node.indexWhere filter) }

/-- Modelled from the spec: `OnConflictNode.cloneWithUpdateWhere` (outside
`src/`) AND-joins a parsed fragment onto the update-gating predicate. -/
def OnConflictNode.cloneWithUpdateWhere (node : OnConflictNode)
    (filter : PredicateTree) : OnConflictNode :=
  freeze { node with updateWhere := some (PredicateTree.andJoin node.updateWhere filter) }

/-- Modelled from the spec: `OnConflictNode.cloneWithUpdateOrWhere` (outside
`src/`) OR-joins a parsed fragment onto the update-gating predicate. -/
def OnConflictNode.cloneWithUpdateOrWhere (node : OnConflictNode)
    (filter : PredicateTree) : OnConflictNode :=
  freeze { node with updateWhere := some (PredicateTree.orJoin node.updateWhere filter) }

/-- `OnConflictBuilderProps`: the frozen props shared by all three builder
classes (on-conflict-builder.ts lines 321-324). -/
structure OnConflictBuilderProps where
  onConflictNode : OnConflictNode
  parseContext : ParseContext
  deriving DecidableEq, Repr

/-- `OnConflictBuilder` (on-conflict-builder.ts lines 27-319): the conflict
target builder, holding its frozen props. -/
structure OnConflictBuilder where
  props : OnConflictBuilderProps
  deriving DecidableEq, Repr

/-- `OnConflictDoNothingBuilder` (lines 328-340): terminal builder after
`doNothing()`. -/
structure OnConflictDoNothingBuilder where
  props : OnConflictBuilderProps
  deriving DecidableEq, Repr

/-- `OnConflictUpdateBuilder` (lines 347-510): the update action builder after
`doUpdateSet(...)`. -/
structure OnConflictUpdateBuilder where
  props : OnConflictBuilderProps
  deriving DecidableEq, Repr

/-- `OnConflictBuilder.column` (lines 42-53). -/
def OnConflictBuilder.column (b : OnConflictBuilder) (column : String) :
    OnConflictBuilder :=
  let columnNode := ColumnNode.create column
  ⟨{ b.props with
      onConflictNode :=
        OnConflictNode.cloneWithColumns b.props.onConflictNode
          (match b.props.onConflictNode.columns with
            | some cs => freeze (cs ++ [columnNode])
            | none => freeze [columnNode]) }⟩

/-- `OnConflictBuilder.columns` (lines 61-74). -/
def OnConflictBuilder.columns (b : OnConflictBuilder) (columns : List String) :
    OnConflictBuilder :=
  let columnNodes := columns.map ColumnNode.create
  ⟨{ b.props with
      onConflictNode :=
        OnConflictNode.cloneWithColumns b.props.onConflictNode
          (match b.props.onConflictNode.columns with
            | some cs => freeze (cs ++ columnNodes)
            | none => freeze columnNodes) }⟩

/-- `OnConflictBuilder.constraint` (lines 82-89). -/
def OnConflictBuilder.constraint (b : OnConflictBuilder) (constraintName : String) :
    OnConflictBuilder :=
  ⟨{ b.props with
      onConflictNode :=
        OnConflictNode.cloneWithConstraint b.props.onConflictNode
          (IdentifierNode.create constraintName) }⟩

/-- `OnConflictBuilder.expression` (lines 99-106). -/
def OnConflictBuilder.expression (b : OnConflictBuilder) (expression : RawBuilder) :
    OnConflictBuilder :=
  ⟨{ b.props with
      onConflictNode :=
        OnConflictNode.cloneWithIndexExpression b.props.onConflictNode
          (RawBuilder.toOperationNode expression) }⟩

/-- `OnConflictBuilder.where` (lines 122-130); `where` is a Lean keyword, so
the method is named `where'` here.  `args` stands for the filter arguments,
already parsed by the external `parseWhereFilter`. -/
def OnConflictBuilder.where' (b : OnConflictBuilder) (args : PredicateTree) :
    OnConflictBuilder :=
  ⟨{ b.props with
      onConflictNode :=
        OnConflictNode.cloneWithIndexWhere b.props.onConflictNode
          (parseWhereFilter b.props.parseContext args) }⟩

/-- `OnConflictBuilder.whereRef` (lines 137-149). -/
def OnConflictBuilder.whereRef (b : OnConflictBuilder) (lhs : String)
    (op : FilterOperator) (rhs : String) : OnConflictBuilder :=
  ⟨{ b.props with
      onConflictNode :=
        OnConflictNode.cloneWithIndexWhere b.props.onConflictNode
          (parseReferenceFilter b.props.parseContext lhs op rhs) }⟩

/-- `OnConflictBuilder.orWhere` (lines 164-172). -/
def OnConflictBuilder.orWhere (b : OnConflictBuilder) (args : PredicateTree) :
    OnConflictBuilder :=
  ⟨{ b.props with
      onConflictNode :=
        OnConflictNode.cloneWithIndexOrWhere b.props.onConflictNode
          (parseWhereFilter b.props.parseContext args) }⟩

/-- `OnConflictBuilder.orWhereRef` (lines 179-191). -/
def OnConflictBuilder.orWhereRef (b : OnConflictBuilder) (lhs : String)
    (op : FilterOperator) (rhs : String) : OnConflictBuilder :=
  ⟨{ b.props with
      onConflictNode :=
        OnConflictNode.cloneWithIndexOrWhere b.props.onConflictNode
          (parseReferenceFilter b.props.parseContext lhs op rhs) }⟩

/-- `OnConflictBuilder.whereExists` (lines 198-206). -/
def OnConflictBuilder.whereExists (b : OnConflictBuilder) (arg : ComplexExpression) :
    OnConflictBuilder :=
  ⟨{ b.props with
      onConflictNode :=
        OnConflictNode.cloneWithIndexWhere b.props.onConflictNode
          (parseExistFilter b.props.parseContext arg) }⟩

/-- `OnConflictBuilder.whereNotExists` (lines 213-221). -/
def OnConflictBuilder.whereNotExists (b : OnConflictBuilder) (arg : ComplexExpression) :
    OnConflictBuilder :=
  ⟨{ b.props with
      onConflictNode :=
        OnConflictNode.cloneWithIndexWhere b.props.onConflictNode
          (parseNotExistFilter b.props.parseContext arg) }⟩

/-- `OnConflictBuilder.orWhereExists` (lines 228-236). -/
def OnConflictBuilder.orWhereExists (b : OnConflictBuilder) (arg : ComplexExpression) :
    OnConflictBuilder :=
  ⟨{ b.props with
      onConflictNode :=
        OnConflictNode.cloneWithIndexOrWhere b.props.onConflictNode
          (parseExistFilter b.props.parseContext arg) }⟩

/-- `OnConflictBuilder.orWhereNotExists` (lines 243-251). -/
def OnConflictBuilder.orWhereNotExists (b : OnConflictBuilder) (arg : ComplexExpression) :
    OnConflictBuilder :=
  ⟨{ b.props with
      onConflictNode :=
        OnConflictNode.cloneWithIndexOrWhere b.props.onConflictNode
          (parseNotExistFilter b.props.parseContext arg) }⟩

/-- `OnConflictBuilder.doNothing` (lines 276-283). -/
def OnConflictBuilder.doNothing (b : OnConflictBuilder) : OnConflictDoNothingBuilder :=
  ⟨{ b.props with
      onConflictNode :=
        OnConflictNode.cloneWithDoNothing b.props.onConflictNode true }⟩

/-- `OnConflictBuilder.doUpdateSet` (lines 309-318). -/
def OnConflictBuilder.doUpdateSet (b : OnConflictBuilder) (updates : MutationObject) :
    OnConflictUpdateBuilder :=
  ⟨{ b.props with
      onConflictNode :=
        OnConflictNode.cloneWithUpdates b.props.onConflictNode
          (parseUpdateObject b.props.parseContext updates) }⟩

/-- `OnConflictDoNothingBuilder.toOperationNode` (lines 337-339). -/
def OnConflictDoNothingBuilder.toOperationNode (b : OnConflictDoNothingBuilder) :
    OnConflictNode :=
  b.props.onConflictNode

/-- `OnConflictUpdateBuilder.where` (lines 370-378), named `where'` as above. -/
def OnConflictUpdateBuilder.where' (b : OnConflictUpdateBuilder)
    (args : PredicateTree) : OnConflictUpdateBuilder :=
  ⟨{ b.props with
      onConflictNode :=
        OnConflictNode.cloneWithUpdateWhere b.props.onConflictNode
          (parseWhereFilter b.props.parseContext args) }⟩

/-- `OnConflictUpdateBuilder.whereRef` (lines 385-397). -/
def OnConflictUpdateBuilder.whereRef (b : OnConflictUpdateBuilder) (lhs : String)
    (op : FilterOperator) (rhs : String) : OnConflictUpdateBuilder :=
  ⟨{ b.props with
      onConflictNode :=
        OnConflictNode.cloneWithUpdateWhere b.props.onConflictNode
          (parseReferenceFilter b.props.parseContext lhs op rhs) }⟩

/-- `OnConflictUpdateBuilder.orWhere` (lines 412-420). -/
def OnConflictUpdateBuilder.orWhere (b : OnConflictUpdateBuilder)
    (args : PredicateTree) : OnConflictUpdateBuilder :=
  ⟨{ b.props with
      onConflictNode :=
        OnConflictNode.cloneWithUpdateOrWhere b.props.onConflictNode
          (parseWhereFilter b.props.parseContext args) }⟩

/-- `OnConflictUpdateBuilder.orWhereRef` (lines 427-439). -/
def OnConflictUpdateBuilder.orWhereRef (b : OnConflictUpdateBuilder) (lhs : String)
    (op : FilterOperator) (rhs : String) : OnConflictUpdateBuilder :=
  ⟨{ b.props with
      onConflictNode :=
        OnConflictNode.cloneWithUpdateOrWhere b.props.onConflictNode
          (parseReferenceFilter b.props.parseContext lhs op rhs) }⟩

/-- `OnConflictUpdateBuilder.whereExists` (lines 446-454). -/
def OnConflictUpdateBuilder.whereExists (b : OnConflictUpdateBuilder)
    (arg : ComplexExpression) : OnConflictUpdateBuilder :=
  ⟨{ b.props with
      onConflictNode :=
        OnConflictNode.cloneWithUpdateWhere b.props.onConflictNode
          (parseExistFilter b.props.parseContext arg) }⟩

/-- `OnConflictUpdateBuilder.whereNotExists` (lines 461-471). -/
def OnConflictUpdateBuilder.whereNotExists (b : OnConflictUpdateBuilder)
    (arg : ComplexExpression) : OnConflictUpdateBuilder :=
  ⟨{ b.props with
      onConflictNode :=
        OnConflictNode.cloneWithUpdateWhere b.props.onConflictNode
          (parseNotExistFilter b.props.parseContext arg) }⟩

/-- `OnConflictUpdateBuilder.orWhereExists` (lines 478-488). -/
def OnConflictUpdateBuilder.orWhereExists (b : OnConflictUpdateBuilder)
    (arg : ComplexExpression) : OnConflictUpdateBuilder :=
  ⟨{ b.props with
      onConflictNode :=
        OnConflictNode.cloneWithUpdateOrWhere b.props.onConflictNode
          (parseExistFilter b.props.parseContext arg) }⟩

/-- `OnConflictUpdateBuilder.orWhereNotExists` (lines 495-505). -/
def OnConflictUpdateBuilder.orWhereNotExists (b : OnConflictUpdateBuilder)
    (arg : ComplexExpression) : OnConflictUpdateBuilder :=
  ⟨{ b.props with
      onConflictNode :=
        OnConflictNode.cloneWithUpdateOrWhere b.props.onConflictNode
          (parseNotExistFilter b.props.parseContext arg) }⟩

/-- `OnConflictUpdateBuilder.toOperationNode` (lines 507-509). -/
def OnConflictUpdateBuilder.toOperationNode (b : OnConflictUpdateBuilder) :
    OnConflictNode :=
  b.props.onConflictNode

/-! Non-terminal operations of the conflict target builder, reified so that
statements can quantify over arbitrary call sequences. -/

inductive TargetOp where
  | column (c : String)
  | columns (cs : List String)
  | constraint (n : String)
  | expression (e : RawBuilder)
  | whereOp (p : PredicateTree)
  | orWhereOp (p : PredicateTree)
  | whereRefOp (lhs : String) (op : FilterOperator) (rhs : String)
  | orWhereRefOp (lhs : String) (op : FilterOperator) (rhs : String)
  | whereExistsOp (e : ComplexExpression)
  | whereNotExistsOp (e : ComplexExpression)
  | orWhereExistsOp (e : ComplexExpression)
  | orWhereNotExistsOp (e : ComplexExpression)
  deriving DecidableEq, Repr

/-- Dispatch one reified call to the corresponding `OnConflictBuilder` method. -/
def applyTargetOp (op : TargetOp) (b : OnConflictBuilder) : OnConflictBuilder :=
  match op with
  | .column c => b.column c
  | .columns cs => b.columns cs
  | .constraint n => b.constraint n
  | .expression e => b.expression e
  | .whereOp p => b.where' p
  | .orWhereOp p => b.orWhere p
  | .whereRefOp l o r => b.whereRef l o r
  | .orWhereRefOp l o r => b.orWhereRef l o r
  | .whereExistsOp e => b.whereExists e
  | .whereNotExistsOp e => b.whereNotExists e
  | .orWhereExistsOp e => b.orWhereExists e
  | .orWhereNotExistsOp e => b.orWhereNotExists e

/-- Apply a list of reified calls left to right. -/
def applyTargetOps (ops : List TargetOp) (b : OnConflictBuilder) : OnConflictBuilder :=
  ops.foldl (fun acc op => applyTargetOp op acc) b

/-- The descriptor-level effect of one target-builder call: the pure function
from the prior descriptor to the new one that the method body computes. -/
def targetOpNode (ctx : ParseContext) (op : TargetOp) (node : OnConflictNode) :
    OnConflictNode :=
  match op with
  | .column c =>
      OnConflictNode.cloneWithColumns node
        (match node.columns with
          | some cs => freeze (cs ++ [ColumnNode.create c])
          | none => freeze [ColumnNode.create c])
  | .columns cs =>
      OnConflictNode.cloneWithColumns node
        (match node.columns with
          | some prior => freeze (prior ++ cs.map ColumnNode.create)
          | none => freeze (cs.map ColumnNode.create))
  | .constraint n => OnConflictNode.cloneWithConstraint node (IdentifierNode.create n)
  | .expression e =>
      OnConflictNode.cloneWithIndexExpression node (RawBuilder.toOperationNode e)
  | .whereOp p => OnConflictNode.cloneWithIndexWhere node (parseWhereFilter ctx p)
  | .orWhereOp p => OnConflictNode.cloneWithIndexOrWhere node (parseWhereFilter ctx p)
  | .whereRefOp l o r =>
      OnConflictNode.cloneWithIndexWhere node (parseReferenceFilter ctx l o r)
  | .orWhereRefOp l o r =>
      OnConflictNode.cloneWithIndexOrWhere node (parseReferenceFilter ctx l o r)
  | .whereExistsOp e => OnConflictNode.cloneWithIndexWhere node (parseExistFilter ctx e)
  | .whereNotExistsOp e =>
      OnConflictNode.cloneWithIndexWhere node (parseNotExistFilter ctx e)
  | .orWhereExistsOp e =>
      OnConflictNode.cloneWithIndexOrWhere node (parseExistFilter ctx e)
  | .orWhereNotExistsOp e =>
      OnConflictNode.cloneWithIndexOrWhere node (parseNotExistFilter ctx e)

/-- Fold the descriptor-level effects over a call sequence. -/
def applyNodeOps (ctx : ParseContext) (ops : List TargetOp) (node : OnConflictNode) :
    OnConflictNode :=
  ops.foldl (fun n op => targetOpNode ctx op n) node

theorem applyTargetOp_props (op : TargetOp) (b : OnConflictBuilder) :
    (applyTargetOp op b).props.onConflictNode
        = targetOpNode b.props.parseContext op b.props.onConflictNode
      ∧ (applyTargetOp op b).props.parseContext = b.props.parseContext := by
  cases op <;> exact ⟨rfl, rfl⟩

theorem applyTargetOps_props (ops : List TargetOp) (b : OnConflictBuilder) :
    (applyTargetOps ops b).props.onConflictNode
        = applyNodeOps b.props.parseContext ops b.props.onConflictNode
      ∧ (applyTargetOps ops b).props.parseContext = b.props.parseContext := by
  induction ops generalizing b with
  | nil => exact ⟨rfl, rfl⟩
  | cons op rest ih =>
      obtain ⟨h1, h2⟩ := applyTargetOp_props op b
      obtain ⟨ih1, ih2⟩ := ih (applyTargetOp op b)
      constructor
      · show (applyTargetOps rest (applyTargetOp op b)).props.onConflictNode = _
        rw [ih1, h1, h2]
        rfl
      · show (applyTargetOps rest (applyTargetOp op b)).props.parseContext = _
        rw [ih2, h2]

/-! The two target-column operations, reified for statements about arbitrary
`column` / `columns` call sequences. -/

inductive ColOp where
  | one (c : String)
  | many (cs : List String)
  deriving DecidableEq, Repr

/-- The column names one reified column call supplies, in order. -/
def colOpNames : ColOp → List String
  | .one c => [c]
  | .many cs => cs

/-- All column names a sequence of reified column calls supplies, in call
order. -/
def allColNames : List ColOp → List String
  | [] => []
  | op :: rest => colOpNames op ++ allColNames rest

/-- Dispatch one reified column call. -/
def applyColOp (op : ColOp) (b : OnConflictBuilder) : OnConflictBuilder :=
  match op with
  | .one c => b.column c
  | .many cs => b.columns cs

/-- Apply a list of reified column calls left to right. -/
def applyColOps (ops : List ColOp) (b : OnConflictBuilder) : OnConflictBuilder :=
  ops.foldl (fun acc op => applyColOp op acc) b

theorem applyColOps_some (ops : List ColOp) (b : OnConflictBuilder)
    (cs : List ColumnNode) (h : b.props.onConflictNode.columns = some cs) :
    (applyColOps ops b).props.onConflictNode.columns
      = some (cs ++ (allColNames ops).map ColumnNode.create) := by
  induction ops generalizing b cs with
  | nil => simp [applyColOps, allColNames, h]
  | cons op rest ih =>
      have hstep : (applyColOp op b).props.onConflictNode.columns
          = some (cs ++ (colOpNames op).map ColumnNode.create) := by
        cases op with
        | one c =>
            simp only [applyColOp, OnConflictBuilder.column,
              OnConflictNode.cloneWithColumns, freeze, h, colOpNames, List.map]
        | many names =>
            simp only [applyColOp, OnConflictBuilder.columns,
              OnConflictNode.cloneWithColumns, freeze, h, colOpNames]
      have := ih (applyColOp op b) _ hstep
      show (applyColOps rest (applyColOp op b)).props.onConflictNode.columns = _
      rw [this, List.append_assoc, ← List.map_append]
      rfl

/-! The eight predicate operations of the update action builder, reified. -/

inductive UpdateOp where
  | whereOp (p : PredicateTree)
  | orWhereOp (p : PredicateTree)
  | whereRefOp (lhs : String) (op : FilterOperator) (rhs : String)
  | orWhereRefOp (lhs : String) (op : FilterOperator) (rhs : String)
  | whereExistsOp (e : ComplexExpression)
  | whereNotExistsOp (e : ComplexExpression)
  | orWhereExistsOp (e : ComplexExpression)
  | orWhereNotExistsOp (e : ComplexExpression)
  deriving DecidableEq, Repr

/-- Dispatch one reified call to the corresponding `OnConflictUpdateBuilder`
method. -/
def applyUpdateOp (op : UpdateOp) (b : OnConflictUpdateBuilder) :
    OnConflictUpdateBuilder :=
  match op with
  | .whereOp p => b.where' p
  | .orWhereOp p => b.orWhere p
  | .whereRefOp l o r => b.whereRef l o r
  | .orWhereRefOp l o r => b.orWhereRef l o r
  | .whereExistsOp e => b.whereExists e
  | .whereNotExistsOp e => b.whereNotExists e
  | .orWhereExistsOp e => b.orWhereExists e
  | .orWhereNotExistsOp e => b.orWhereNotExists e

/-- The parsed predicate fragment one reified update-predicate call produces. -/
def updateOpFrag (ctx : ParseContext) : UpdateOp → PredicateTree
  | .whereOp p => parseWhereFilter ctx p
  | .orWhereOp p => parseWhereFilter ctx p
  | .whereRefOp l o r => parseReferenceFilter ctx l o r
  | .orWhereRefOp l o r => parseReferenceFilter ctx l o r
  | .whereExistsOp e => parseExistFilter ctx e
  | .whereNotExistsOp e => parseNotExistFilter ctx e
  | .orWhereExistsOp e => parseExistFilter ctx e
  | .orWhereNotExistsOp e => parseNotExistFilter ctx e

/-- Whether a reified update-predicate call AND-joins or OR-joins its
fragment. -/
def updateOpJoin : UpdateOp → Option PredicateTree → PredicateTree → PredicateTree
  | .whereOp _ => PredicateTree.andJoin
  | .orWhereOp _ => PredicateTree.orJoin
  | .whereRefOp _ _ _ => PredicateTree.andJoin
  | .orWhereRefOp _ _ _ => PredicateTree.orJoin
  | .whereExistsOp _ => PredicateTree.andJoin
  | .whereNotExistsOp _ => PredicateTree.andJoin
  | .orWhereExistsOp _ => PredicateTree.orJoin
  | .orWhereNotExistsOp _ => PredicateTree.orJoin

/-! The method surface of each builder class, transcribed from the class
member declarations so that terminal separation can be stated. -/

inductive MethodName where
  | column
  | columns
  | constraintM
  | expressionM
  | whereM
  | whereRefM
  | orWhereM
  | orWhereRefM
  | whereExistsM
  | whereNotExistsM
  | orWhereExistsM
  | orWhereNotExistsM
  | doNothingM
  | doUpdateSetM
  | toOperationNodeM
  deriving DecidableEq, Repr

/-- Methods declared on `OnConflictBuilder` (lines 27-319): the four target
methods, the eight index-predicate methods and the two terminals; no
`toOperationNode`. -/
def OnConflictBuilder.hasMethod : MethodName → Bool
  | .toOperationNodeM => false
  | _ => true

/-- Methods declared on `OnConflictDoNothingBuilder` (lines 328-340): only
`toOperationNode`. -/
def OnConflictDoNothingBuilder.hasMethod : MethodName → Bool
  | .toOperationNodeM => true
  | _ => false

/-- Methods declared on `OnConflictUpdateBuilder` (lines 347-510): the eight
update-predicate methods and `toOperationNode`; no target, index-predicate or
terminal methods. -/
def OnConflictUpdateBuilder.hasMethod : MethodName → Bool
  | .whereM => true
  | .whereRefM => true
  | .orWhereM => true
  | .orWhereRefM => true
  | .whereExistsM => true
  | .whereNotExistsM => true
  | .orWhereExistsM => true
  | .orWhereNotExistsM => true
  | .toOperationNodeM => true
  | _ => false

/-- The eight where-family method names shared by the conflict builder (index
predicate) and the update builder (update predicate). -/
def predicateMethods : List MethodName :=
  [MethodName.whereM, MethodName.whereRefM, MethodName.orWhereM,
    MethodName.orWhereRefM, MethodName.whereExistsM, MethodName.whereNotExistsM,
    MethodName.orWhereExistsM, MethodName.orWhereNotExistsM]

/-! Concrete values used by the witnesses. -/

/-- The empty conflict descriptor the enclosing insert builder starts from. -/
def emptyNode : OnConflictNode :=
  ⟨none, none, none, none, none, none, none⟩

def ctx0 : ParseContext :=
  ⟨0⟩

/-- A fresh conflict target builder over the empty descriptor. -/
def b0 : OnConflictBuilder :=
  ⟨⟨emptyNode, ctx0⟩⟩

/-- A fresh update action builder over the empty descriptor. -/
def ub0 : OnConflictUpdateBuilder :=
  ⟨⟨emptyNode, ctx0⟩⟩

/-- Claim C1: starting from a builder with no index predicate,
`where(p1).orWhere(p2).where(p3)` produces the index predicate
`(p1 OR p2) AND p3`, composed strictly left to right in call order, and that
tree is not the re-association `p1 OR (p2 AND p3)`. -/
theorem claim1_where_orWhere_where (b : OnConflictBuilder) (p1 p2 p3 : PredicateTree)
    (h : b.props.onConflictNode.indexWhere = none) :
    (((b.where' p1).orWhere p2).where' p3).props.onConflictNode.indexWhere
        = some (PredicateTree.and (PredicateTree.or p1 p2) p3)
      ∧ (((b.where' p1).orWhere p2).where' p3).props.onConflictNode.indexWhere
        ≠ some (PredicateTree.or p1 (PredicateTree.and p2 p3)) := by
  have h1 : (((b.where' p1).orWhere p2).where' p3).props.onConflictNode.indexWhere
      = some (PredicateTree.and (PredicateTree.or p1 p2) p3) := by
    simp [OnConflictBuilder.where', OnConflictBuilder.orWhere,
      OnConflictNode.cloneWithIndexWhere, OnConflictNode.cloneWithIndexOrWhere,
      parseWhereFilter, freeze, PredicateTree.andJoin, PredicateTree.orJoin, h]
  refine ⟨h1, ?_⟩
  rw [h1]
  simp

theorem claim1_witness :
    (((b0.where' (PredicateTree.frag 1)).orWhere (PredicateTree.frag 2)).where'
          (PredicateTree.frag 3)).props.onConflictNode.indexWhere
        = some (PredicateTree.and
            (PredicateTree.or (PredicateTree.frag 1) (PredicateTree.frag 2))
            (PredicateTree.frag 3))
      ∧ (((b0.where' (PredicateTree.frag 1)).orWhere (PredicateTree.frag 2)).where'
          (PredicateTree.frag 3)).props.onConflictNode.indexWhere
        ≠ some (PredicateTree.or (PredicateTree.frag 1)
            (PredicateTree.and (PredicateTree.frag 2) (PredicateTree.frag 3))) :=
  claim1_where_orWhere_where b0 (PredicateTree.frag 1) (PredicateTree.frag 2)
    (PredicateTree.frag 3) rfl

/-- Claim C2: on a builder with no index predicate, a single `where(p)` or
`orWhere(p)` call stores `p` itself as the index predicate, with no
conjunction or disjunction wrapper. -/
theorem claim2_first_call_identity (b : OnConflictBuilder) (p : PredicateTree)
    (h : b.props.onConflictNode.indexWhere = none) :
    (b.where' p).props.onConflictNode.indexWhere = some p
      ∧ (b.orWhere p).props.onConflictNode.indexWhere = some p := by
  constructor <;>
    simp [OnConflictBuilder.where', OnConflictBuilder.orWhere,
      OnConflictNode.cloneWithIndexWhere, OnConflictNode.cloneWithIndexOrWhere,
      parseWhereFilter, freeze, PredicateTree.andJoin, PredicateTree.orJoin, h]

theorem claim2_witness :
    (b0.where' (PredicateTree.frag 7)).props.onConflictNode.indexWhere
        = some (PredicateTree.frag 7)
      ∧ (b0.orWhere (PredicateTree.frag 7)).props.onConflictNode.indexWhere
        = some (PredicateTree.frag 7) :=
  claim2_first_call_identity b0 (PredicateTree.frag 7) rfl

/-- Claim C3: no builder operation mutates its receiver — a descriptor
extracted from `b` beforehand still equals `d` after any sequence of calls on
derived builders, and every derived builder's descriptor (including through
`doNothing` and `doUpdateSet`) is the pure descriptor-level transform of `d`. -/
theorem claim3_immutability (b : OnConflictBuilder) (ops : List TargetOp)
    (d : OnConflictNode) (m : MutationObject)
    (h : b.props.onConflictNode = d) :
    b.props.onConflictNode = d
      ∧ (applyTargetOps ops b).props.onConflictNode
          = applyNodeOps b.props.parseContext ops d
      ∧ ((applyTargetOps ops b).doNothing).props.onConflictNode
          = OnConflictNode.cloneWithDoNothing
              (applyNodeOps b.props.parseContext ops d) true
      ∧ ((applyTargetOps ops b).doUpdateSet m).props.onConflictNode
          = OnConflictNode.cloneWithUpdates (applyNodeOps b.props.parseContext ops d)
              (parseUpdateObject b.props.parseContext m) := by
  obtain ⟨h1, h2⟩ := applyTargetOps_props ops b
  subst h
  refine ⟨rfl, h1, ?_, ?_⟩
  · show OnConflictNode.cloneWithDoNothing
        (applyTargetOps ops b).props.onConflictNode true = _
    rw [h1]
  · show OnConflictNode.cloneWithUpdates
        (applyTargetOps ops b).props.onConflictNode
        (parseUpdateObject (applyTargetOps ops b).props.parseContext m) = _
    rw [h1, h2]

theorem claim3_witness :
    b0.props.onConflictNode = emptyNode
      ∧ (applyTargetOps [TargetOp.column "a",
            TargetOp.whereOp (PredicateTree.frag 1)] b0).props.onConflictNode
          = applyNodeOps b0.props.parseContext
              [TargetOp.column "a", TargetOp.whereOp (PredicateTree.frag 1)] emptyNode
      ∧ ((applyTargetOps [TargetOp.column "a",
            TargetOp.whereOp (PredicateTree.frag 1)] b0).doNothing).props.onConflictNode
          = OnConflictNode.cloneWithDoNothing
              (applyNodeOps b0.props.parseContext
                [TargetOp.column "a", TargetOp.whereOp (PredicateTree.frag 1)]
                emptyNode) true
      ∧ ((applyTargetOps [TargetOp.column "a",
            TargetOp.whereOp (PredicateTree.frag 1)] b0).doUpdateSet
            [("n", 5)]).props.onConflictNode
          = OnConflictNode.cloneWithUpdates
              (applyNodeOps b0.props.parseContext
                [TargetOp.column "a", TargetOp.whereOp (PredicateTree.frag 1)]
                emptyNode)
              (parseUpdateObject b0.props.parseContext [("n", 5)]) :=
  claim3_immutability b0
    [TargetOp.column "a", TargetOp.whereOp (PredicateTree.frag 1)]
    emptyNode [("n", 5)] rfl

/-- Claim C4: starting from a builder with no target columns, any nonempty
sequence of `column` / `columns` calls produces exactly the concatenation of
the supplied names in call order — no deduplication, no reordering — with the
list created on the first call. -/
theorem claim4_columns_concat (b : OnConflictBuilder) (ops : List ColOp)
    (h : b.props.onConflictNode.columns = none) (hne : ops ≠ []) :
    (applyColOps ops b).props.onConflictNode.columns
      = some ((allColNames ops).map ColumnNode.create) := by
  cases ops with
  | nil => exact absurd rfl hne
  | cons op rest =>
      have hstep : (applyColOp op b).props.onConflictNode.columns
          = some ((colOpNames op).map ColumnNode.create) := by
        cases op with
        | one c =>
            simp [applyColOp, OnConflictBuilder.column,
              OnConflictNode.cloneWithColumns, freeze, h, colOpNames]
        | many names =>
            simp [applyColOp, OnConflictBuilder.columns,
              OnConflictNode.cloneWithColumns, freeze, h, colOpNames]
      have hrest := applyColOps_some rest (applyColOp op b) _ hstep
      show (applyColOps rest (applyColOp op b)).props.onConflictNode.columns = _
      rw [hrest, ← List.map_append]
      rfl

theorem claim4_witness :
    (applyColOps [ColOp.one "a", ColOp.many ["b", "c"], ColOp.one "a"]
        b0).props.onConflictNode.columns
      = some ((allColNames [ColOp.one "a", ColOp.many ["b", "c"],
          ColOp.one "a"]).map ColumnNode.create) :=
  claim4_columns_concat b0 [ColOp.one "a", ColOp.many ["b", "c"], ColOp.one "a"]
    rfl (by decide)

/-- Claim C5: each of the eight predicate methods of the update action builder
composes its parsed fragment onto `updateWhere` only (AND- or OR-joined per
the method), leaving the target fields (`columns`, `constraint`,
`indexExpression`), the index predicate and the update mapping unchanged. -/
theorem claim5_update_frame (ub : OnConflictUpdateBuilder) (op : UpdateOp) :
    (applyUpdateOp op ub).props.onConflictNode.columns
        = ub.props.onConflictNode.columns
      ∧ (applyUpdateOp op ub).props.onConflictNode.constraint
        = ub.props.onConflictNode.constraint
      ∧ (applyUpdateOp op ub).props.onConflictNode.indexExpression
        = ub.props.onConflictNode.indexExpression
      ∧ (applyUpdateOp op ub).props.onConflictNode.indexWhere
        = ub.props.onConflictNode.indexWhere
      ∧ (applyUpdateOp op ub).props.onConflictNode.updates
        = ub.props.onConflictNode.updates
      ∧ (applyUpdateOp op ub).props.onConflictNode.doNothing
        = ub.props.onConflictNode.doNothing
      ∧ (applyUpdateOp op ub).props.onConflictNode.updateWhere
        = some (updateOpJoin op ub.props.onConflictNode.updateWhere
            (updateOpFrag ub.props.parseContext op)) := by
  cases op <;> exact ⟨rfl, rfl, rfl, rfl, rfl, rfl, rfl⟩

/-- Claim C6: `constraint(name)` is last-write-wins on the constraint slot and
leaves a populated column list untouched; `expression(expr)` has the same
replacement semantics on the expression slot. -/
theorem claim6_target_replacement (b : OnConflictBuilder) (n1 n2 : String)
    (e1 e2 : RawBuilder) :
    ((b.constraint n1).constraint n2).props.onConflictNode.constraint
        = some (IdentifierNode.create n2)
      ∧ (b.constraint n1).props.onConflictNode.columns
        = b.props.onConflictNode.columns
      ∧ ((b.expression e1).expression e2).props.onConflictNode.indexExpression
        = some (RawBuilder.toOperationNode e2)
      ∧ (b.expression e1).props.onConflictNode.columns
        = b.props.onConflictNode.columns :=
  ⟨rfl, rfl, rfl, rfl⟩

/-- Claim C7: on a builder whose descriptor has no update predicate,
`doUpdateSet(m)` stores the parsed mapping as the update action, leaves the
update predicate absent, and carries the target and index-predicate fields
over unchanged. -/
theorem claim7_doUpdateSet (b : OnConflictBuilder) (m : MutationObject)
    (h : b.props.onConflictNode.updateWhere = none) :
    (b.doUpdateSet m).props.onConflictNode.updates
        = some (parseUpdateObject b.props.parseContext m)
      ∧ (b.doUpdateSet m).props.onConflictNode.updateWhere = none
      ∧ (b.doUpdateSet m).props.onConflictNode.columns
        = b.props.onConflictNode.columns
      ∧ (b.doUpdateSet m).props.onConflictNode.constraint
        = b.props.onConflictNode.constraint
      ∧ (b.doUpdateSet m).props.onConflictNode.indexExpression
        = b.props.onConflictNode.indexExpression
      ∧ (b.doUpdateSet m).props.onConflictNode.indexWhere
        = b.props.onConflictNode.indexWhere :=
  ⟨rfl, h, rfl, rfl, rfl, rfl⟩

theorem claim7_witness :
    (b0.doUpdateSet [("x", 1)]).props.onConflictNode.updates
        = some (parseUpdateObject b0.props.parseContext [("x", 1)])
      ∧ (b0.doUpdateSet [("x", 1)]).props.onConflictNode.updateWhere = none
      ∧ (b0.doUpdateSet [("x", 1)]).props.onConflictNode.columns
        = b0.props.onConflictNode.columns
      ∧ (b0.doUpdateSet [("x", 1)]).props.onConflictNode.constraint
        = b0.props.onConflictNode.constraint
      ∧ (b0.doUpdateSet [("x", 1)]).props.onConflictNode.indexExpression
        = b0.props.onConflictNode.indexExpression
      ∧ (b0.doUpdateSet [("x", 1)]).props.onConflictNode.indexWhere
        = b0.props.onConflictNode.indexWhere :=
  claim7_doUpdateSet b0 [("x", 1)] rfl

/-- Claim C8: `doNothing()` returns a terminal builder whose
`toOperationNode()` is exactly the stored descriptor: the prior descriptor
with the do-nothing action set and every other field unchanged. -/
theorem claim8_doNothing (b : OnConflictBuilder) :
    (b.doNothing).toOperationNode = (b.doNothing).props.onConflictNode
      ∧ (b.doNothing).toOperationNode.doNothing = some true
      ∧ (b.doNothing).toOperationNode.columns = b.props.onConflictNode.columns
      ∧ (b.doNothing).toOperationNode.constraint = b.props.onConflictNode.constraint
      ∧ (b.doNothing).toOperationNode.indexExpression
        = b.props.onConflictNode.indexExpression
      ∧ (b.doNothing).toOperationNode.indexWhere = b.props.onConflictNode.indexWhere
      ∧ (b.doNothing).toOperationNode.updates = b.props.onConflictNode.updates
      ∧ (b.doNothing).toOperationNode.updateWhere
        = b.props.onConflictNode.updateWhere :=
  ⟨rfl, rfl, rfl, rfl, rfl, rfl, rfl, rfl⟩

/-- Claim C9: terminal separation is static.  The class reached by
`doNothing()` declares only `toOperationNode`, so every further target or
predicate call is impossible; the class reached by `doUpdateSet(m)` declares
exactly the eight update-predicate methods plus `toOperationNode`, so target
and index-predicate calls (`column`, `columns`, `constraint`, `expression`,
`doNothing`, `doUpdateSet`) are impossible there. -/
theorem claim9_terminal_separation :
    (∀ m : MethodName, OnConflictDoNothingBuilder.hasMethod m
        = (m == MethodName.toOperationNodeM))
      ∧ (∀ m : MethodName, OnConflictUpdateBuilder.hasMethod m
        = (predicateMethods.contains m || m == MethodName.toOperationNodeM)) := by
  constructor <;> intro m <;> cases m <;> rfl

/-- Claim C10: `column(c)` and `columns([c])` return equal builders, and
`columns([])` leaves the contents of the column list unchanged, creating an
empty but present list when none existed. -/
theorem claim10_column_columns (b : OnConflictBuilder) (c : String) :
    b.column c = b.columns [c]
      ∧ (b.columns []).props.onConflictNode.columns
        = some (b.props.onConflictNode.columns.getD []) := by
  constructor
  · cases hcols : b.props.onConflictNode.columns <;>
      simp [OnConflictBuilder.column, OnConflictBuilder.columns,
        OnConflictNode.cloneWithColumns, freeze, hcols]
  · cases hcols : b.props.onConflictNode.columns <;>
      simp [OnConflictBuilder.columns, OnConflictNode.cloneWithColumns,
        freeze, hcols]

end Kysely
